import Mathlib

/-!
Verification of the viral-integration client
(`src/services/viral_integration_service.py` and `viral_config.py`).

The Python code is a retry-wrapped HTTP client.  We embed it shallowly:

* the network is abstracted into a `WorkerBehavior`: what outcome each HTTP
  request made by the client would get (the health probe, each attempt of the
  `POST /api/search` retry loop, the synchronous fallback `POST`, and whether a
  `GET` of an image URL succeeds);
* a response body, once parsed, is a `BodyVal`; values that would make the
  Python code raise (`response.json()` failing, a top-level value that is not
  a dict, a non-iterable `images` value, a record that is not a dict) are
  explicit constructors, so "this line raises" is modelled as `Option.none`
  at the corresponding function;
* numbers coming from the worker are modelled as rationals/integers
  (`engagement_score` participates in a division, hence `ℚ`);
* `datetime.now().isoformat()` and `int(time.time())` are the parameters
  `now : String` and `epoch : Nat`, fixed for one call;
* Python dictionaries with optional keys become structures with `Option`
  fields read through `Option.getD`, mirroring `dict.get(key, default)`.
-/

/-- A single raw record of the worker's `images` array, as the Python code
reads it with `image_data.get(...)`: every key optional. -/
structure RawViralRecord where
  title : Option String := none
  description : Option String := none
  platform : Option String := none
  engagement_score : Option ℚ := none
  views_estimate : Option Int := none
  likes_estimate : Option Int := none
  comments_estimate : Option Int := none
  shares_estimate : Option Int := none
  author : Option String := none
  author_followers : Option Int := none
  post_date : Option String := none
  hashtags : Option (List String) := none
  post_url : Option String := none
  image_url : Option String := none
  deriving DecidableEq

/-- One entry of the `images` array: either a JSON object (`ok`) or any other
JSON value (`malformed`), on which every `image_data.get` call raises
`AttributeError` and the record is skipped by the per-record `except`. -/
inductive RecVal where
  | malformed
  | ok (r : RawViralRecord)
  deriving DecidableEq

/-- The value found under the `images` key: either an iterable of records or a
value on which `for i, image_data in enumerate(images)` raises `TypeError`. -/
inductive ImagesVal where
  | notIterable
  | records (rs : List RecVal)
  deriving DecidableEq

/-- A parsed `POST /api/search` response body.  `raising` covers both a body
that is not valid JSON (`response.json()` raises) and a top-level JSON value
that is not a dict (`result.get('images', [])` raises `AttributeError`);
in both cases the exception propagates out of the processing step into the
retry loop's `except` clauses.  `dict images` is a JSON object, with `images`
the value of its `images` key when present. -/
inductive BodyVal where
  | raising
  | dict (images : Option ImagesVal)
  deriving DecidableEq

/-- Outcome of one HTTP request as seen by the Python client:
connection error (`requests.exceptions.ConnectionError` / `aiohttp.ClientError`),
timeout, or a response with a status code and a (parsed) body. -/
inductive HttpOutcome where
  | connError
  | timeout
  | status (code : Nat) (body : BodyVal)
  deriving DecidableEq

/-- The environment one call runs against: outcome of the health probe
(`GET /api/searches`), outcome of the n-th attempt of the async retry loop
(`POST /api/search`), outcome of the synchronous fallback `POST /api/search`,
and whether `GET image_url` returns HTTP 200 and the file write succeeds. -/
structure WorkerBehavior where
  health : HttpOutcome
  searchAttempt : Nat → HttpOutcome
  syncSearch : HttpOutcome
  imgFetch : String → Bool

/-- `self.max_retries = 3` from `ViralIntegrationService.__init__`. -/
def max_retries : Nat := 3

/-- `self.images_dir = Path("analyses_data/viral_images")` from `__init__`. -/
def images_dir : String := "analyses_data/viral_images"

/-- `VIRAL_CONFIG['allowed_extensions']` in `viral_config.py`; the same list is
hard-coded in `_download_and_save_image`. -/
def allowed_extensions : List String := ["jpg", "jpeg", "png", "gif", "webp"]

/-- One entry of `processed_images` as built in `_process_viral_results`
(lines 213-231): every field already defaulted. -/
structure ProcessedViralItem where
  id : String
  title : String
  description : String
  platform : String
  engagement_score : ℚ
  views_estimate : Int
  likes_estimate : Int
  comments_estimate : Int
  shares_estimate : Int
  author : String
  author_followers : Int
  post_date : String
  hashtags : List String
  original_url : String
  image_url : String
  local_image_path : Option String
  collected_at : String
  deriving DecidableEq

/-- The `aggregated_metrics` sub-dict of a SearchResult. -/
structure AggregatedMetrics where
  total_engagement_score : ℚ
  average_engagement : ℚ
  total_estimated_views : Int
  total_estimated_likes : Int
  top_performing_platform : String
  deriving DecidableEq

/-- The top-level dict returned by `search_viral_content` on every path.
The keys that appear only in one of the two dict literals
(`_process_viral_results` lines 246-261, `_create_fallback_result`
lines 303-320) are `Option` fields: `none` models key absence. -/
structure SearchResult where
  session_id : String
  search_completed_at : String
  total_images_found : Nat
  total_images_saved : Nat
  platforms_searched : List String
  viral_images : List ProcessedViralItem
  aggregated_metrics : AggregatedMetrics
  original_viral_result : Option BodyVal
  error : Option String
  fallback_used : Option Bool
  original_query : Option String
  deriving DecidableEq

/-- The seven keys that both dict literals (`_process_viral_results` and
`_create_fallback_result`) share, in literal order. -/
def commonResultKeys : List String :=
  ["session_id", "search_completed_at", "total_images_found",
   "total_images_saved", "platforms_searched", "viral_images",
   "aggregated_metrics"]

/-- The set of keys present in the dict a `SearchResult` models, in the order
of the Python dict literals (the seven common keys first, then whichever of
the path-dependent keys are present). -/
def SearchResult.keys (r : SearchResult) : List String :=
  commonResultKeys
  ++ (if r.original_viral_result.isSome then ["original_viral_result"] else [])
  ++ (if r.error.isSome then ["error"] else [])
  ++ (if r.fallback_used.isSome then ["fallback_used"] else [])
  ++ (if r.original_query.isSome then ["original_query"] else [])

/-- Python `s.split(sep)` for a single-character separator, on the character
list of the string: `"".split('.') == [""]`, `"a.b".split('.') == ["a","b"]`. -/
def splitChar (sep : Char) : List Char → List (List Char)
  | [] => [[]]
  | c :: cs =>
    match splitChar sep cs with
    | [] => [[]]
    | part :: parts =>
      if c = sep then [] :: part :: parts else (c :: part) :: parts

/-- Python `str.lower()` (the URLs at issue are ASCII). -/
def lowerStr (s : String) : String := String.mk (s.toList.map Char.toLower)

/-- A character allowed inside a URL scheme (`urllib.parse.scheme_chars`). -/
def isSchemeChar (c : Char) : Bool :=
  c.isAlphanum || c = '+' || c = '-' || c = '.'

/-- A WHATWG C0 control character or space (code point ≤ 0x20):
`urlsplit` strips these from the start of the URL. -/
def isC0ControlOrSpace (c : Char) : Bool := c.toNat ≤ 0x20

/-- `_UNSAFE_URL_BYTES_TO_REMOVE`: tab, CR and LF, which `urlsplit` removes
everywhere in the URL. -/
def isUnsafeUrlChar (c : Char) : Bool := c = '\t' || c = '\r' || c = '\n'

/-- Split a leading `scheme:` as `urllib.parse.urlsplit` does: only when a
colon is present, the part before it is non-empty, starts with an ASCII
letter and consists of scheme characters.  Returns the lower-cased scheme
(empty when there is none) and the remainder of the URL. -/
def splitScheme (cs : List Char) : String × List Char :=
  let pre := cs.takeWhile (fun c => c ≠ ':')
  match cs.drop pre.length with
  | ':' :: rest =>
    match pre with
    | [] => ("", cs)
    | c₀ :: pre₀ =>
      if c₀.isAlpha && pre₀.all isSchemeChar then
        (String.mk (pre.map Char.toLower), rest)
      else ("", cs)
  | _ => ("", cs)

/-- Strip a leading `//netloc` as `urllib.parse.urlsplit` does: the authority
runs up to the next `/` or `?` (the fragment was already removed). -/
def dropNetloc : List Char → List Char
  | '/' :: '/' :: rest => rest.dropWhile (fun c => c ≠ '/' && c ≠ '?')
  | cs => cs

/-- `urllib.parse.uses_params`: the schemes (the empty scheme included) for
which `urlparse` splits `;params` off the last path segment. -/
def uses_params : List String :=
  ["", "ftp", "hdl", "prospero", "http", "imap", "https", "shttp", "rtsp",
   "rtspu", "sip", "sips", "mms", "sftp", "tel"]

/-- `urllib.parse._splitparams` restricted to its path result: when the path
has a `/`, drop everything from the first `;` inside the last segment;
otherwise drop everything from the first `;`.  A path with no `;` at the
relevant position is returned unchanged (so the caller's `';' in url` guard
is subsumed). -/
def splitParams (path : List Char) : List Char :=
  if path.contains '/' then
    let seg := (path.reverse.takeWhile (fun c => c ≠ '/')).reverse
    path.take (path.length - seg.length) ++ seg.takeWhile (fun c => c ≠ ';')
  else
    path.takeWhile (fun c => c ≠ ';')

/-- `urlparse(image_url).path`: the path component of a URL, as
`urllib.parse.urlparse` computes it: strip leading C0-control/space
characters and every tab/CR/LF, drop the fragment, the `scheme:` prefix and
the `//authority`, stop at the query, and — for schemes that use them —
split `;params` off the last path segment.  (CPython detects the scheme
before cutting the fragment; with scheme characters excluding `#`, `/` and
`?` the two orders agree.) -/
def urlparsePath (url : String) : String :=
  let cs := (url.toList.dropWhile isC0ControlOrSpace).filter
    (fun c => !(isUnsafeUrlChar c))
  let cs := cs.takeWhile (fun c => c ≠ '#')
  let sr := splitScheme cs
  let cs := dropNetloc sr.2
  let path := cs.takeWhile (fun c => c ≠ '?')
  String.mk (if sr.1 ∈ uses_params then splitParams path else path)

/-- `path_parts = parsed_url.path.split('.')` (line 272). -/
def pathParts (path : String) : List String :=
  (splitChar '.' path.toList).map String.mk

/-- `path_parts[-1].lower()`: the lower-cased trailing suffix of the path
(the whole path, lowered, when the path has no dot). -/
def trailingSuffix (path : String) : String :=
  lowerStr ((pathParts path).getLastD "")

/-- Line 273: `extension = path_parts[-1].lower() if len(path_parts) > 1 and
path_parts[-1].lower() in ['jpg','jpeg','png','gif','webp'] else 'jpg'`. -/
def extensionForPath (path : String) : String :=
  if 1 < (pathParts path).length ∧ trailingSuffix path ∈ allowed_extensions then
    trailingSuffix path
  else "jpg"

/-- `_download_and_save_image` (lines 263-296).  Returns the saved file's
path, or `none` when the URL is empty, the `GET` does not return 200, or any
exception occurred (the catch-all `except` returns `None`). -/
def downloadAndSaveImage (b : WorkerBehavior) (image_url : String)
    (save_dir : String) (filename_base : String) : Option String :=
  if image_url = "" then none
  else
    let extension := extensionForPath (urlparsePath image_url)
    let filename := filename_base ++ "." ++ extension
    let file_path := save_dir ++ "/" ++ filename
    if b.imgFetch image_url then some file_path else none

/-- `session_images_dir = self.images_dir / session_id` (line 198). -/
def sessionImagesDir (session_id : String) : String :=
  images_dir ++ "/" ++ session_id

/-- The `processed_image` dict built for record number `i` (0-based) in
`_process_viral_results`, lines 213-231. -/
def mkProcessedItem (session_id now : String) (i : Nat) (r : RawViralRecord)
    (localPath : Option String) : ProcessedViralItem :=
  { id := "viral_" ++ session_id ++ "_" ++ toString (i + 1)
    title := r.title.getD "Conteúdo Viral"
    description := r.description.getD ""
    platform := r.platform.getD "unknown"
    engagement_score := r.engagement_score.getD 0
    views_estimate := r.views_estimate.getD 0
    likes_estimate := r.likes_estimate.getD 0
    comments_estimate := r.comments_estimate.getD 0
    shares_estimate := r.shares_estimate.getD 0
    author := r.author.getD "Desconhecido"
    author_followers := r.author_followers.getD 0
    post_date := r.post_date.getD now
    hashtags := r.hashtags.getD []
    original_url := r.post_url.getD ""
    image_url := r.image_url.getD ""
    local_image_path := localPath
    collected_at := now }

/-- The `for i, image_data in enumerate(images)` loop of
`_process_viral_results` (lines 203-237): a malformed record raises inside
the per-record `try` and is skipped (`continue`); the index keeps counting
skipped records, as `enumerate` does. -/
def processRecords (b : WorkerBehavior) (session_id now : String)
    (epoch : Nat) : Nat → List RecVal → List ProcessedViralItem
  | _, [] => []
  | i, .malformed :: rest => processRecords b session_id now epoch (i + 1) rest
  | i, .ok r :: rest =>
    let localPath := downloadAndSaveImage b (r.image_url.getD "")
      (sessionImagesDir session_id)
      ("viral_image_" ++ toString (i + 1) ++ "_" ++ toString epoch)
    mkProcessedItem session_id now i r localPath
      :: processRecords b session_id now epoch (i + 1) rest

/-- `len([img for img in processed_images if img.get('platform') == p])`
(line 258). -/
def platformCount (items : List ProcessedViralItem) (p : String) : Nat :=
  (items.filter (fun img => img.platform == p)).length

/-- Python `max(xs, key=f)`: scans left to right and keeps the first element
whose key is strictly greater than the current maximum, so the first maximal
element wins ties; `none` on the empty list (`max` would raise, the source
guards with `if platforms_found`). -/
def pyMaxBy (f : String → Nat) : List String → Option String
  | [] => none
  | x :: xs => some (xs.foldl (fun best y => if f best < f y then y else best) x)

/-- The success-path dict of `_process_viral_results` (lines 239-261), built
from the parsed body `viral_result` and the already-extracted record list.
`list(set(...))` on line 244 is modelled as `List.dedup`; CPython's set
iteration order is implementation-defined, and no property proved below
depends on the order of `platforms_searched`. -/
def buildResult (b : WorkerBehavior) (viral_result : BodyVal)
    (session_id now : String) (epoch : Nat) (rs : List RecVal) : SearchResult :=
  let processed_images := processRecords b session_id now epoch 0 rs
  let total_engagement := (processed_images.map (fun img => img.engagement_score)).sum
  let total_views := (processed_images.map (fun img => img.views_estimate)).sum
  let total_likes := (processed_images.map (fun img => img.likes_estimate)).sum
  let platforms_found := (processed_images.map (fun img => img.platform)).dedup
  { session_id := session_id
    search_completed_at := now
    total_images_found := processed_images.length
    total_images_saved :=
      (processed_images.filter (fun img => img.local_image_path.isSome)).length
    platforms_searched := platforms_found
    viral_images := processed_images
    aggregated_metrics :=
      { total_engagement_score := total_engagement
        average_engagement :=
          if processed_images = [] then 0
          else total_engagement / (processed_images.length : ℚ)
        total_estimated_views := total_views
        total_estimated_likes := total_likes
        top_performing_platform :=
          match pyMaxBy (platformCount processed_images) platforms_found with
          | some p => p
          | none => "none" }
    original_viral_result := some viral_result
    error := none
    fallback_used := none
    original_query := none }

/-- `_process_viral_results` (lines 194-261) as its callers see it: `none`
when the body makes the function raise (the callers' `except` clauses then
take over), otherwise the success-shaped result. -/
def processViralResults (b : WorkerBehavior) (viral_result : BodyVal)
    (session_id now : String) (epoch : Nat) : Option SearchResult :=
  match viral_result with
  | .raising => none
  | .dict images =>
    match images.getD (.records []) with
    | .notIterable => none
    | .records rs => some (buildResult b viral_result session_id now epoch rs)

/-- `_create_fallback_result` (lines 298-320). -/
def createFallbackResult (query session_id now : String) : SearchResult :=
  { session_id := session_id
    search_completed_at := now
    total_images_found := 0
    total_images_saved := 0
    platforms_searched := []
    viral_images := []
    aggregated_metrics :=
      { total_engagement_score := 0
        average_engagement := 0
        total_estimated_views := 0
        total_estimated_likes := 0
        top_performing_platform := "none" }
    original_viral_result := none
    error := some "Falha na integração com o serviço viral"
    fallback_used := some true
    original_query := some query }

/-- `_check_viral_service_health` (lines 132-158): available iff the probe
returns status 200 or 404; every error path returns `False`. -/
def checkViralServiceHealth (b : WorkerBehavior) : Bool :=
  match b.health with
  | .status code _ => code == 200 || code == 404
  | _ => false

/-- `_search_viral_sync_fallback` (lines 160-192): one synchronous `POST`;
on 200 the body is processed (a processing exception is caught and turns
into the fallback result); every other outcome yields the fallback result. -/
def searchViralSyncFallback (b : WorkerBehavior) (query session_id now : String)
    (epoch : Nat) : SearchResult :=
  match b.syncSearch with
  | .status code body =>
    if code = 200 then
      match processViralResults b body session_id now epoch with
      | some r => r
      | none => createFallbackResult query session_id now
    else createFallbackResult query session_id now
  | _ => createFallbackResult query session_id now

/-- The `for attempt in range(self.max_retries)` loop of
`search_viral_content` (lines 67-130).  `attempt` is the loop index,
`remaining` the number of iterations left (`maxRetries` initially).  Returns
the result (`none` models the implicit `return None` when the loop falls
through) paired with the number of `POST /api/search` requests issued. -/
def searchLoop (b : WorkerBehavior) (query session_id now : String)
    (epoch maxRetries : Nat) : Nat → Nat → Option SearchResult × Nat
  | _, 0 => (none, 0)
  | attempt, remaining + 1 =>
    match b.searchAttempt attempt with
    | .status code body =>
      if code = 200 then
        match processViralResults b body session_id now epoch with
        | some r => (some r, 1)
        | none =>
          if attempt = maxRetries - 1 then
            (some (createFallbackResult query session_id now), 1)
          else
            ((searchLoop b query session_id now epoch maxRetries
                (attempt + 1) remaining).1,
             (searchLoop b query session_id now epoch maxRetries
                (attempt + 1) remaining).2 + 1)
      else
        if attempt = maxRetries - 1 then
          (some (createFallbackResult query session_id now), 1)
        else
          ((searchLoop b query session_id now epoch maxRetries
              (attempt + 1) remaining).1,
           (searchLoop b query session_id now epoch maxRetries
              (attempt + 1) remaining).2 + 1)
    | _ =>
      if attempt = maxRetries - 1 then
        (some (createFallbackResult query session_id now), 1)
      else
        ((searchLoop b query session_id now epoch maxRetries
            (attempt + 1) remaining).1,
         (searchLoop b query session_id now epoch maxRetries
            (attempt + 1) remaining).2 + 1)

/-- `search_viral_content` (lines 38-130) with the retry count as a
parameter: health probe, then either the async retry loop or the synchronous
fallback.  The second component counts the `POST /api/search` requests
issued. -/
def searchViralContentWith (maxRetries : Nat) (b : WorkerBehavior)
    (query session_id now : String) (epoch : Nat) : Option SearchResult × Nat :=
  if checkViralServiceHealth b then
    searchLoop b query session_id now epoch maxRetries 0 maxRetries
  else
    (some (searchViralSyncFallback b query session_id now epoch), 1)

/-- `search_viral_content` with the constructed service's
`self.max_retries = 3`. -/
def searchViralContent (b : WorkerBehavior) (query session_id now : String)
    (epoch : Nat) : Option SearchResult × Nat :=
  searchViralContentWith max_retries b query session_id now epoch

/-- The record-derived payload of a `ProcessedViralItem`: every
`RawViralRecord` field after defaulting, without the per-call identity
fields (`id`, `local_image_path`, `collected_at`). -/
structure RecordCore where
  title : String
  description : String
  platform : String
  engagement_score : ℚ
  views_estimate : Int
  likes_estimate : Int
  comments_estimate : Int
  shares_estimate : Int
  author : String
  author_followers : Int
  post_date : String
  hashtags : List String
  post_url : String
  image_url : String
  deriving DecidableEq

/-- The defaulted view of a raw record, with `now` filling the `post_date`
default (`datetime.now().isoformat()`). -/
def RawViralRecord.coreWith (now : String) (r : RawViralRecord) : RecordCore :=
  { title := r.title.getD "Conteúdo Viral"
    description := r.description.getD ""
    platform := r.platform.getD "unknown"
    engagement_score := r.engagement_score.getD 0
    views_estimate := r.views_estimate.getD 0
    likes_estimate := r.likes_estimate.getD 0
    comments_estimate := r.comments_estimate.getD 0
    shares_estimate := r.shares_estimate.getD 0
    author := r.author.getD "Desconhecido"
    author_followers := r.author_followers.getD 0
    post_date := r.post_date.getD now
    hashtags := r.hashtags.getD []
    post_url := r.post_url.getD ""
    image_url := r.image_url.getD "" }

/-- The record-derived fields of a processed item. -/
def ProcessedViralItem.core (it : ProcessedViralItem) : RecordCore :=
  { title := it.title
    description := it.description
    platform := it.platform
    engagement_score := it.engagement_score
    views_estimate := it.views_estimate
    likes_estimate := it.likes_estimate
    comments_estimate := it.comments_estimate
    shares_estimate := it.shares_estimate
    author := it.author
    author_followers := it.author_followers
    post_date := it.post_date
    hashtags := it.hashtags
    post_url := it.original_url
    image_url := it.image_url }

/-- A worker response outcome on which the claimed failure set is met: the
host is unreachable, the request times out, the status is not 200, or the
200 body is not a JSON object (so processing it raises). -/
def SearchFailure : HttpOutcome → Prop
  | .connError => True
  | .timeout => True
  | .status code body => code ≠ 200 ∨ body = .raising

/-- Worker that answers every request — health probe included — with
HTTP 500. -/
def bAll500 : WorkerBehavior :=
  { health := .status 500 .raising
    searchAttempt := fun _ => .status 500 .raising
    syncSearch := .status 500 .raising
    imgFetch := fun _ => false }

/-- Worker whose health endpoint answers 200 but whose search endpoint
answers HTTP 500 on every attempt. -/
def bHealthy500 : WorkerBehavior :=
  { health := .status 200 (.dict none)
    searchAttempt := fun _ => .status 500 .raising
    syncSearch := .status 500 .raising
    imgFetch := fun _ => false }

/-- A raw record with a platform, an engagement score and an image URL. -/
def sampleRec : RawViralRecord :=
  { platform := some "instagram"
    engagement_score := some 80
    image_url := some "https://x/a.png" }

/-- A healthy worker returning `{"images": [sampleRec]}`, with image
downloads succeeding. -/
def bFetchOk : WorkerBehavior :=
  { health := .status 200 (.dict none)
    searchAttempt := fun _ => .status 200 (.dict (some (.records [.ok sampleRec])))
    syncSearch := .connError
    imgFetch := fun _ => true }

/-- A healthy worker answering 200 with a well-formed JSON object whose
`images` array holds a single malformed (non-object) record. -/
def bMalformedRecord : WorkerBehavior :=
  { health := .status 200 (.dict none)
    searchAttempt := fun _ => .status 200 (.dict (some (.records [.malformed])))
    syncSearch := .connError
    imgFetch := fun _ => false }

/-- A healthy worker answering 200 with `{"images": []}`. -/
def bEmptyOk : WorkerBehavior :=
  { health := .status 200 (.dict none)
    searchAttempt := fun _ => .status 200 (.dict (some (.records [])))
    syncSearch := .connError
    imgFetch := fun _ => false }

/-- A healthy worker returning three records over two platforms, with no
image URLs. -/
def bTwoPlatforms : WorkerBehavior :=
  { health := .status 200 (.dict none)
    searchAttempt := fun _ => .status 200 (.dict (some (.records
      [.ok { platform := some "instagram" },
       .ok { platform := some "facebook" },
       .ok { platform := some "instagram" }])))
    syncSearch := .connError
    imgFetch := fun _ => false }

lemma extensionForPath_cases (path : String) :
    (1 < (pathParts path).length ∧ trailingSuffix path ∈ allowed_extensions →
      extensionForPath path = trailingSuffix path)
    ∧ ((pathParts path).length ≤ 1 ∨ trailingSuffix path ∉ allowed_extensions →
      extensionForPath path = "jpg")
    ∧ (1 < (pathParts path).length →
      (extensionForPath path = trailingSuffix path ↔
        trailingSuffix path ∈ allowed_extensions)) := by
  unfold extensionForPath
  by_cases hc : 1 < (pathParts path).length ∧ trailingSuffix path ∈ allowed_extensions
  · rw [if_pos hc]
    refine ⟨fun _ => rfl, ?_, fun _ => ⟨fun _ => hc.2, fun _ => rfl⟩⟩
    intro hd
    rcases hd with h1 | h2
    · omega
    · exact absurd hc.2 h2
  · rw [if_neg hc]
    refine ⟨fun h => absurd h hc, fun _ => rfl, ?_⟩
    intro hlen
    constructor
    · intro h
      rw [← h]
      decide
    · intro hmem
      exact absurd ⟨hlen, hmem⟩ hc

/-- C8: for every non-empty image URL whose download succeeds, the saved
filename ends in `"." ++ extension`, where the extension is the lower-cased
trailing suffix of the URL path exactly when that (lower-cased) suffix is in
the allow-list `{jpg, jpeg, png, gif, webp}`, and the fixed generic `"jpg"`
in every other case (no suffix, or a suffix outside the allow-list). -/
theorem viral_extension_spec (b : WorkerBehavior) (url dir base : String) :
    (url ≠ "" → b.imgFetch url = true →
      downloadAndSaveImage b url dir base
        = some (dir ++ "/" ++ (base ++ "." ++ extensionForPath (urlparsePath url))))
    ∧ (1 < (pathParts (urlparsePath url)).length
        ∧ trailingSuffix (urlparsePath url) ∈ allowed_extensions →
      extensionForPath (urlparsePath url) = trailingSuffix (urlparsePath url))
    ∧ ((pathParts (urlparsePath url)).length ≤ 1
        ∨ trailingSuffix (urlparsePath url) ∉ allowed_extensions →
      extensionForPath (urlparsePath url) = "jpg")
    ∧ (1 < (pathParts (urlparsePath url)).length →
      (extensionForPath (urlparsePath url) = trailingSuffix (urlparsePath url) ↔
        trailingSuffix (urlparsePath url) ∈ allowed_extensions)) := by
  obtain ⟨h1, h2, h3⟩ := extensionForPath_cases (urlparsePath url)
  refine ⟨?_, h1, h2, h3⟩
  intro hne hf
  simp [downloadAndSaveImage, hne, hf]

/-- Witness for C8 at concrete URLs: `https://x/a.PNG` gets extension `png`
(the lower-cased suffix is in the allow-list), while `https://x/a;1.png`,
whose URL path is `/a` because `urlparse` splits the `;params` off the last
segment, has no suffix and gets the generic `jpg`. -/
theorem viral_extension_spec_witness :
    downloadAndSaveImage bFetchOk "https://x/a.PNG" "d" "f"
      = some ("d" ++ "/" ++ ("f" ++ "." ++ extensionForPath (urlparsePath "https://x/a.PNG")))
    ∧ extensionForPath (urlparsePath "https://x/a.PNG")
      = trailingSuffix (urlparsePath "https://x/a.PNG")
    ∧ urlparsePath "https://x/a;1.png" = "/a"
    ∧ extensionForPath (urlparsePath "https://x/a;1.png") = "jpg"
    ∧ urlparsePath "https://x/a.png;v=1" = "/a.png" :=
  ⟨(viral_extension_spec bFetchOk "https://x/a.PNG" "d" "f").1 (by decide) rfl,
   (viral_extension_spec bFetchOk "https://x/a.PNG" "d" "f").2.1 (by decide),
   by decide,
   (viral_extension_spec bFetchOk "https://x/a;1.png" "d" "f").2.2.1 (by decide),
   by decide⟩

lemma searchLoop_all_fail (b : WorkerBehavior) (q sid now : String) (ep mr : Nat)
    (hfail : ∀ n, SearchFailure (b.searchAttempt n)) :
    ∀ remaining attempt, attempt + remaining = mr → 1 ≤ remaining →
      searchLoop b q sid now ep mr attempt remaining
        = (some (createFallbackResult q sid now), remaining) := by
  intro remaining
  induction remaining with
  | zero => intro attempt _ h1; omega
  | succ k ih =>
    intro attempt hsum _
    have hf := hfail attempt
    cases hout : b.searchAttempt attempt with
    | connError =>
      by_cases hlast : attempt = mr - 1
      · have hk : k = 0 := by omega
        subst hk
        subst hlast
        simp [searchLoop, hout]
      · have hk : 1 ≤ k := by omega
        simp [searchLoop, hout, hlast, ih (attempt + 1) (by omega) hk]
    | timeout =>
      by_cases hlast : attempt = mr - 1
      · have hk : k = 0 := by omega
        subst hk
        subst hlast
        simp [searchLoop, hout]
      · have hk : 1 ≤ k := by omega
        simp [searchLoop, hout, hlast, ih (attempt + 1) (by omega) hk]
    | status code body =>
      rw [hout] at hf
      simp only [SearchFailure] at hf
      by_cases h200 : code = 200
      · subst h200
        have hbody : body = .raising := by
          rcases hf with h | h
          · exact absurd rfl h
          · exact h
        subst hbody
        by_cases hlast : attempt = mr - 1
        · have hk : k = 0 := by omega
          subst hk
          subst hlast
          simp [searchLoop, hout, processViralResults]
        · have hk : 1 ≤ k := by omega
          simp [searchLoop, hout, hlast, processViralResults,
            ih (attempt + 1) (by omega) hk]
      · by_cases hlast : attempt = mr - 1
        · have hk : k = 0 := by omega
          subst hk
          subst hlast
          simp [searchLoop, hout, h200]
        · have hk : 1 ≤ k := by omega
          simp [searchLoop, hout, hlast, h200, ih (attempt + 1) (by omega) hk]

lemma searchLoop_isSome (b : WorkerBehavior) (q sid now : String) (ep mr : Nat) :
    ∀ remaining attempt, attempt + remaining = mr → 1 ≤ remaining →
      ((searchLoop b q sid now ep mr attempt remaining).1).isSome = true := by
  intro remaining
  induction remaining with
  | zero => intro attempt _ h1; omega
  | succ k ih =>
    intro attempt hsum _
    cases hout : b.searchAttempt attempt with
    | connError =>
      by_cases hlast : attempt = mr - 1
      · subst hlast
        simp [searchLoop, hout]
      · have hk : 1 ≤ k := by omega
        simp [searchLoop, hout, hlast, ih (attempt + 1) (by omega) hk]
    | timeout =>
      by_cases hlast : attempt = mr - 1
      · subst hlast
        simp [searchLoop, hout]
      · have hk : 1 ≤ k := by omega
        simp [searchLoop, hout, hlast, ih (attempt + 1) (by omega) hk]
    | status code body =>
      by_cases h200 : code = 200
      · subst h200
        cases hp : processViralResults b body sid now ep with
        | some r => simp [searchLoop, hout, hp]
        | none =>
          by_cases hlast : attempt = mr - 1
          · subst hlast
            simp [searchLoop, hout, hp]
          · have hk : 1 ≤ k := by omega
            simp [searchLoop, hout, hp, hlast, ih (attempt + 1) (by omega) hk]
      · by_cases hlast : attempt = mr - 1
        · subst hlast
          simp [searchLoop, hout, h200]
        · have hk : 1 ≤ k := by omega
          simp [searchLoop, hout, h200, hlast, ih (attempt + 1) (by omega) hk]

lemma searchLoop_origin (b : WorkerBehavior) (q sid now : String) (ep mr : Nat) :
    ∀ remaining attempt r, (searchLoop b q sid now ep mr attempt remaining).1 = some r →
      r = createFallbackResult q sid now
      ∨ ∃ body, processViralResults b body sid now ep = some r := by
  intro remaining
  induction remaining with
  | zero => intro attempt r h; simp [searchLoop] at h
  | succ k ih =>
    intro attempt r h
    cases hout : b.searchAttempt attempt with
    | connError =>
      simp only [searchLoop, hout] at h
      by_cases hlast : attempt = mr - 1
      · rw [if_pos hlast] at h
        left
        exact (Option.some.inj h).symm
      · rw [if_neg hlast] at h
        exact ih (attempt + 1) r h
    | timeout =>
      simp only [searchLoop, hout] at h
      by_cases hlast : attempt = mr - 1
      · rw [if_pos hlast] at h
        left
        exact (Option.some.inj h).symm
      · rw [if_neg hlast] at h
        exact ih (attempt + 1) r h
    | status code body =>
      simp only [searchLoop, hout] at h
      by_cases h200 : code = 200
      · subst h200
        rw [if_pos rfl] at h
        cases hp : processViralResults b body sid now ep with
        | some r' =>
          rw [hp] at h
          right
          exact ⟨body, by rw [hp, Option.some.inj h]⟩
        | none =>
          rw [hp] at h
          by_cases hlast : attempt = mr - 1
          · rw [if_pos hlast] at h
            left
            exact (Option.some.inj h).symm
          · rw [if_neg hlast] at h
            exact ih (attempt + 1) r h
      · rw [if_neg h200] at h
        by_cases hlast : attempt = mr - 1
        · rw [if_pos hlast] at h
          left
          exact (Option.some.inj h).symm
        · rw [if_neg hlast] at h
          exact ih (attempt + 1) r h

lemma syncFallback_origin (b : WorkerBehavior) (q sid now : String) (ep : Nat) :
    searchViralSyncFallback b q sid now ep = createFallbackResult q sid now
    ∨ ∃ body, processViralResults b body sid now ep
        = some (searchViralSyncFallback b q sid now ep) := by
  unfold searchViralSyncFallback
  cases hout : b.syncSearch with
  | connError => left; rfl
  | timeout => left; rfl
  | status code body =>
    by_cases h200 : code = 200
    · subst h200
      cases hp : processViralResults b body sid now ep with
      | some r => right; exact ⟨body, by simp [hp]⟩
      | none => left; simp [hp]
    · left; simp [h200]

lemma syncFallback_fail (b : WorkerBehavior) (q sid now : String) (ep : Nat)
    (hsync : SearchFailure b.syncSearch) :
    searchViralSyncFallback b q sid now ep = createFallbackResult q sid now := by
  unfold searchViralSyncFallback
  cases hout : b.syncSearch with
  | connError => rfl
  | timeout => rfl
  | status code body =>
    rw [hout] at hsync
    simp only [SearchFailure] at hsync
    by_cases h200 : code = 200
    · subst h200
      have hbody : body = .raising := by
        rcases hsync with h | h
        · exact absurd rfl h
        · exact h
      subst hbody
      simp [processViralResults]
    · simp [h200]

lemma searchViralContentWith_origin (mr : Nat) (b : WorkerBehavior)
    (q sid now : String) (ep : Nat) (r : SearchResult)
    (h : (searchViralContentWith mr b q sid now ep).1 = some r) :
    r = createFallbackResult q sid now
    ∨ ∃ body, processViralResults b body sid now ep = some r := by
  unfold searchViralContentWith at h
  by_cases hh : checkViralServiceHealth b = true
  · rw [if_pos hh] at h
    exact searchLoop_origin b q sid now ep mr mr 0 r h
  · rw [if_neg hh] at h
    simp only at h
    have h' : searchViralSyncFallback b q sid now ep = r := Option.some.inj h
    rcases syncFallback_origin b q sid now ep with heq | ⟨body, hp⟩
    · left; rw [← h', heq]
    · right; exact ⟨body, by rw [hp, h']⟩

/-- C1 counterexample: a worker whose search endpoint answers HTTP 200 with
the malformed body `{"images": [<non-object>]}` makes `search_viral_content`
return a result with zero items but WITHOUT the `fallback_used` key (and
with `error` absent as well): the malformed record is skipped inside
`_process_viral_results` and the success-shaped dict is returned, so the
claimed `fallback_used = true` fails for this malformed response body. -/
theorem viral_malformed_record_body_no_fallback_flag :
    (searchViralContent bMalformedRecord "q" "sid" "t" 0).1.map
        (fun r => (r.fallback_used, r.error, r.total_images_found,
          r.viral_images.length))
      = some (none, none, 0, 0) := by decide

/-- C1 (amended): for every worker behaviour whose search responses are all
failures in the claimed sense — unreachable host, timeout, non-200 status,
or a 200 body that is not a JSON object — `search_viral_content` returns
(never raises) a result with `fallback_used = true`, zero items and
`top_performing_platform = "none"`.  (A 200 body that is a JSON object with
malformed records is excluded: see the counterexample.) -/
theorem viral_failure_modes_yield_fallback (b : WorkerBehavior)
    (q sid now : String) (ep : Nat)
    (hasync : ∀ n, SearchFailure (b.searchAttempt n))
    (hsync : SearchFailure b.syncSearch) :
    ∃ r, (searchViralContent b q sid now ep).1 = some r
      ∧ r.fallback_used = some true
      ∧ r.total_images_found = 0
      ∧ r.viral_images = []
      ∧ r.aggregated_metrics.top_performing_platform = "none" := by
  refine ⟨createFallbackResult q sid now, ?_, rfl, rfl, rfl, rfl⟩
  unfold searchViralContent searchViralContentWith
  by_cases hh : checkViralServiceHealth b = true
  · rw [if_pos hh,
      searchLoop_all_fail b q sid now ep max_retries hasync max_retries 0
        (by omega) (by decide)]
  · rw [if_neg hh]
    simp only
    rw [syncFallback_fail b q sid now ep hsync]

/-- Witness for the amended C1 at the all-500 worker. -/
theorem viral_failure_modes_yield_fallback_witness :
    ∃ r, (searchViralContent bAll500 "q" "s" "t" 0).1 = some r
      ∧ r.fallback_used = some true
      ∧ r.total_images_found = 0
      ∧ r.viral_images = []
      ∧ r.aggregated_metrics.top_performing_platform = "none" :=
  viral_failure_modes_yield_fallback bAll500 "q" "s" "t" 0
    (fun _ => Or.inl (by decide)) (Or.inl (by decide))

/-- C2 counterexample: against a worker that answers EVERY request (health
probe included) with HTTP 500, the health check fails, the synchronous
fallback path runs, and exactly ONE search request is made — not
`max_retries = 3` as claimed. -/
theorem viral_all_500_single_attempt :
    (searchViralContent bAll500 "q" "s" "t" 0).2 = 1
    ∧ (searchViralContent bAll500 "q" "s" "t" 0).2 ≠ max_retries := by decide

/-- C2 (amended): given a worker whose health endpoint answers 200 (or 404)
but whose search endpoint answers HTTP 500 on every attempt,
`search_viral_content` performs exactly `max_retries = 3` search-request
attempts and then returns the fallback result. -/
theorem viral_healthy_500_exactly_max_retries (b : WorkerBehavior)
    (q sid now : String) (ep : Nat)
    (hhealth : ∃ bd, b.health = HttpOutcome.status 200 bd
      ∨ b.health = HttpOutcome.status 404 bd)
    (h500 : ∀ n, ∃ bd, b.searchAttempt n = HttpOutcome.status 500 bd) :
    (searchViralContent b q sid now ep).2 = max_retries
    ∧ (searchViralContent b q sid now ep).1
      = some (createFallbackResult q sid now) := by
  have hh : checkViralServiceHealth b = true := by
    obtain ⟨bd, h | h⟩ := hhealth <;> simp [checkViralServiceHealth, h]
  have hfail : ∀ n, SearchFailure (b.searchAttempt n) := by
    intro n
    obtain ⟨bd, h⟩ := h500 n
    rw [h]
    exact Or.inl (by decide)
  unfold searchViralContent searchViralContentWith
  rw [if_pos hh,
    searchLoop_all_fail b q sid now ep max_retries hfail max_retries 0
      (by omega) (by decide)]
  exact ⟨rfl, rfl⟩

/-- Witness for the amended C2 at a concrete healthy-but-500 worker. -/
theorem viral_healthy_500_exactly_max_retries_witness :
    (searchViralContent bHealthy500 "q" "s" "t" 0).2 = max_retries
    ∧ (searchViralContent bHealthy500 "q" "s" "t" 0).1
      = some (createFallbackResult "q" "s" "t") :=
  viral_healthy_500_exactly_max_retries bHealthy500 "q" "s" "t" 0
    ⟨.dict none, Or.inl rfl⟩ (fun _ => ⟨.raising, rfl⟩)

/-- C10: whenever `max_retries ≥ 1` (the constructor fixes it to 3), every
execution of `search_viral_content` returns an actual result: the implicit
fall-through of the retry loop, which would hand `None` back to the caller,
is unreachable. -/
theorem viral_search_always_returns (mr : Nat) (b : WorkerBehavior)
    (q sid now : String) (ep : Nat) (h : 1 ≤ mr) :
    ((searchViralContentWith mr b q sid now ep).1).isSome = true := by
  unfold searchViralContentWith
  by_cases hh : checkViralServiceHealth b = true
  · rw [if_pos hh]
    exact searchLoop_isSome b q sid now ep mr mr 0 (by omega) h
  · rw [if_neg hh]
    rfl

/-- Witness for C10 at `max_retries = 3` and a concrete worker. -/
theorem viral_search_always_returns_witness :
    ((searchViralContentWith 3 bHealthy500 "q" "s" "t" 0).1).isSome = true :=
  viral_search_always_returns 3 bHealthy500 "q" "s" "t" 0 (by decide)

lemma processViralResults_eq_some (b : WorkerBehavior) (body : BodyVal)
    (sid now : String) (ep : Nat) (r : SearchResult)
    (h : processViralResults b body sid now ep = some r) :
    ∃ rs, r = buildResult b body sid now ep rs := by
  cases body with
  | raising => simp [processViralResults] at h
  | dict images =>
    cases images with
    | none =>
      refine ⟨[], ?_⟩
      have h' : some (buildResult b (BodyVal.dict none) sid now ep []) = some r := h
      exact (Option.some.inj h').symm
    | some iv =>
      cases iv with
      | notIterable => simp [processViralResults] at h
      | records rs =>
        refine ⟨rs, ?_⟩
        have h' : some (buildResult b (BodyVal.dict (some (.records rs))) sid now ep rs)
            = some r := h
        exact (Option.some.inj h').symm

lemma buildResult_viral_images (b : WorkerBehavior) (body : BodyVal)
    (sid now : String) (ep : Nat) (rs : List RecVal) :
    (buildResult b body sid now ep rs).viral_images
      = processRecords b sid now ep 0 rs := rfl

lemma buildResult_found (b : WorkerBehavior) (body : BodyVal)
    (sid now : String) (ep : Nat) (rs : List RecVal) :
    (buildResult b body sid now ep rs).total_images_found
      = (processRecords b sid now ep 0 rs).length := rfl

lemma buildResult_saved (b : WorkerBehavior) (body : BodyVal)
    (sid now : String) (ep : Nat) (rs : List RecVal) :
    (buildResult b body sid now ep rs).total_images_saved
      = ((processRecords b sid now ep 0 rs).filter
          (fun it => it.local_image_path.isSome)).length := rfl

lemma buildResult_top (b : WorkerBehavior) (body : BodyVal)
    (sid now : String) (ep : Nat) (rs : List RecVal) :
    (buildResult b body sid now ep rs).aggregated_metrics.top_performing_platform
      = match pyMaxBy (platformCount (processRecords b sid now ep 0 rs))
          ((processRecords b sid now ep 0 rs).map (fun it => it.platform)).dedup with
        | some p => p
        | none => "none" := rfl

lemma core_mkProcessedItem (sid now : String) (i : Nat) (r : RawViralRecord)
    (lp : Option String) :
    (mkProcessedItem sid now i r lp).core = r.coreWith now := rfl

lemma processRecords_map_core (b : WorkerBehavior) (sid now : String) (ep : Nat) :
    ∀ (rs : List RecVal) (i : Nat),
      (processRecords b sid now ep i rs).map ProcessedViralItem.core
        = rs.filterMap (fun rec => match rec with
            | .malformed => none
            | .ok rr => some (rr.coreWith now)) := by
  intro rs
  induction rs with
  | nil => intro i; rfl
  | cons rec rest ih =>
    intro i
    cases rec with
    | malformed => simpa [processRecords] using ih (i + 1)
    | ok rr => simp [processRecords, core_mkProcessedItem, ih (i + 1)]

lemma processRecords_length_le (b : WorkerBehavior) (sid now : String) (ep : Nat) :
    ∀ (rs : List RecVal) (i : Nat),
      (processRecords b sid now ep i rs).length ≤ rs.length := by
  intro rs
  induction rs with
  | nil => intro i; simp [processRecords]
  | cons rec rest ih =>
    intro i
    cases rec with
    | malformed =>
      simp only [processRecords, List.length_cons]
      exact le_trans (ih (i + 1)) (Nat.le_succ _)
    | ok rr =>
      simp only [processRecords, List.length_cons]
      exact Nat.succ_le_succ (ih (i + 1))

lemma processRecords_ok_length (b : WorkerBehavior) (sid now : String) (ep : Nat) :
    ∀ (rs : List RawViralRecord) (i : Nat),
      (processRecords b sid now ep i (rs.map RecVal.ok)).length = rs.length := by
  intro rs
  induction rs with
  | nil => intro i; rfl
  | cons r rest ih => intro i; simp [processRecords, ih (i + 1)]

lemma processRecords_ok_saved (b : WorkerBehavior) (sid now : String) (ep : Nat) :
    ∀ (rs : List RawViralRecord) (i : Nat),
      (∀ r ∈ rs, r.image_url.getD "" ≠ "" → b.imgFetch (r.image_url.getD "") = true) →
      ((processRecords b sid now ep i (rs.map RecVal.ok)).filter
          (fun it => it.local_image_path.isSome)).length
        = (rs.filter (fun r => r.image_url.getD "" != "")).length := by
  intro rs
  induction rs with
  | nil => intro i _; rfl
  | cons r rest ih =>
    intro i hdl
    have hr := hdl r (List.mem_cons_self r rest)
    have hrest : ∀ r' ∈ rest, r'.image_url.getD "" ≠ "" →
        b.imgFetch (r'.image_url.getD "") = true :=
      fun r' hr' => hdl r' (List.mem_cons_of_mem r hr')
    by_cases hurl : r.image_url.getD "" = ""
    · simp [processRecords, mkProcessedItem, downloadAndSaveImage, hurl,
        List.filter_cons, ih (i + 1) hrest]
    · have hf := hr hurl
      simp [processRecords, mkProcessedItem, downloadAndSaveImage, hurl, hf,
        List.filter_cons, ih (i + 1) hrest]

lemma pyMaxBy_fold_spec (f : String → Nat) :
    ∀ (xs : List String) (x : String),
      (xs.foldl (fun best y => if f best < f y then y else best) x) ∈ x :: xs
      ∧ f x ≤ f (xs.foldl (fun best y => if f best < f y then y else best) x)
      ∧ ∀ y ∈ xs, f y ≤ f (xs.foldl (fun best y => if f best < f y then y else best) x) := by
  intro xs
  induction xs with
  | nil =>
    intro x
    refine ⟨List.mem_cons_self x [], le_refl _, ?_⟩
    intro y hy
    simp at hy
  | cons z zs ih =>
    intro x
    obtain ⟨hmem, hxle, hall⟩ := ih (if f x < f z then z else x)
    simp only [List.foldl_cons]
    by_cases hc : f x < f z
    · rw [if_pos hc] at hmem hxle hall ⊢
      refine ⟨?_, ?_, ?_⟩
      · rcases List.mem_cons.mp hmem with heq | hmemzs
        · rw [heq]
          exact List.mem_cons_of_mem x (List.mem_cons_self z zs)
        · exact List.mem_cons_of_mem x (List.mem_cons_of_mem z hmemzs)
      · exact le_trans (le_of_lt hc) hxle
      · intro y hy
        rcases List.mem_cons.mp hy with rfl | hyzs
        · exact hxle
        · exact hall y hyzs
    · rw [if_neg hc] at hmem hxle hall ⊢
      refine ⟨?_, ?_, ?_⟩
      · rcases List.mem_cons.mp hmem with heq | hmemzs
        · rw [heq]
          exact List.mem_cons_self x (z :: zs)
        · exact List.mem_cons_of_mem x (List.mem_cons_of_mem z hmemzs)
      · exact hxle
      · intro y hy
        rcases List.mem_cons.mp hy with rfl | hyzs
        · exact le_trans (le_of_not_lt hc) hxle
        · exact hall y hyzs

lemma pyMaxBy_mem_le (f : String → Nat) (x : String) (xs : List String) :
    ∃ m, pyMaxBy f (x :: xs) = some m ∧ m ∈ x :: xs ∧ ∀ y ∈ x :: xs, f y ≤ f m := by
  obtain ⟨h1, h2, h3⟩ := pyMaxBy_fold_spec f xs x
  refine ⟨_, rfl, h1, ?_⟩
  intro y hy
  rcases List.mem_cons.mp hy with rfl | hy'
  · exact h2
  · exact h3 y hy'

/-- A raw record with no image URL. -/
def sampleRecNoImg : RawViralRecord := { title := some "x" }

/-- A mixed worker record list: well-formed, malformed, well-formed. -/
def mixedRecs : List RecVal := [.ok sampleRec, .malformed, .ok sampleRecNoImg]

/-- The body `{"images": [sampleRec]}`. -/
def sampleBodyVal : BodyVal := .dict (some (.records [.ok sampleRec]))

/-- The concrete result of processing `sampleBodyVal` under `bFetchOk`. -/
def rFetchOk : SearchResult := buildResult bFetchOk sampleBodyVal "s" "t" 0 [.ok sampleRec]

/-- The concrete result of processing `{"images": []}` under `bEmptyOk`. -/
def rEmptyOk : SearchResult :=
  buildResult bEmptyOk (.dict (some (.records []))) "s" "t" 0 []

/-- Three records over two platforms, no image URLs. -/
def twoPlatRecs : List RecVal :=
  [.ok { platform := some "instagram" },
   .ok { platform := some "facebook" },
   .ok { platform := some "instagram" }]

/-- The concrete result of processing `twoPlatRecs` under `bTwoPlatforms`. -/
def rTwoPlat : SearchResult :=
  buildResult bTwoPlatforms (.dict (some (.records twoPlatRecs))) "s" "t" 0 twoPlatRecs

/-- The concrete result of processing `mixedRecs` under `bFetchOk`. -/
def rMixed : SearchResult :=
  buildResult bFetchOk (.dict (some (.records mixedRecs))) "s" "t" 0 mixedRecs

/-- C3 counterexample: a successful (empty) response produces a result whose
key set contains `original_viral_result`, a key the fallback result lacks —
so the two shapes differ by more than the failure-only fields
(`error`, `fallback_used`, `original_query`). -/
theorem viral_success_fallback_keys_differ :
    (searchViralContent bEmptyOk "q" "s" "t" 0).1.map
        (fun r => r.keys.contains "original_viral_result") = some true
    ∧ (createFallbackResult "q" "s" "t").keys.contains "original_viral_result"
      = false := by decide

/-- C3 (amended): every result of `search_viral_content` has one of exactly
two key sets, sharing the seven common keys: the success shape additionally
has only the success-only key `original_viral_result` (the echoed raw worker
response), and the failure shape additionally has only the failure-only keys
`error`, `fallback_used`, `original_query`. -/
theorem viral_result_key_shapes (b : WorkerBehavior) (q sid now : String)
    (ep : Nat) (r : SearchResult)
    (h : (searchViralContent b q sid now ep).1 = some r) :
    (r.fallback_used = none
      ∧ r.keys = commonResultKeys ++ ["original_viral_result"])
    ∨ (r.fallback_used = some true
      ∧ r.keys = commonResultKeys ++ ["error", "fallback_used", "original_query"]) := by
  rcases searchViralContentWith_origin max_retries b q sid now ep r h with rfl | ⟨body, hp⟩
  · right
    exact ⟨rfl, rfl⟩
  · obtain ⟨rs, rfl⟩ := processViralResults_eq_some b body sid now ep r hp
    left
    exact ⟨rfl, rfl⟩

/-- Witness for the amended C3 at a concrete empty-success worker. -/
theorem viral_result_key_shapes_witness :
    (rEmptyOk.fallback_used = none
      ∧ rEmptyOk.keys = commonResultKeys ++ ["original_viral_result"])
    ∨ (rEmptyOk.fallback_used = some true
      ∧ rEmptyOk.keys = commonResultKeys ++ ["error", "fallback_used", "original_query"]) :=
  viral_result_key_shapes bEmptyOk "q" "s" "t" 0 rEmptyOk rfl

/-- C4: in every result produced by `_process_viral_results`,
`average_engagement` equals `total_engagement_score / total_images_found`
when `total_images_found > 0` and is exactly 0 when `total_images_found = 0`
(the guard `if processed_images` rules out a division-by-zero fault). -/
theorem viral_average_engagement_spec (b : WorkerBehavior) (body : BodyVal)
    (sid now : String) (ep : Nat) (r : SearchResult)
    (h : processViralResults b body sid now ep = some r) :
    (0 < r.total_images_found →
      r.aggregated_metrics.average_engagement
        = r.aggregated_metrics.total_engagement_score / (r.total_images_found : ℚ))
    ∧ (r.total_images_found = 0 → r.aggregated_metrics.average_engagement = 0) := by
  obtain ⟨rs, rfl⟩ := processViralResults_eq_some b body sid now ep r h
  by_cases hp : processRecords b sid now ep 0 rs = []
  · constructor
    · intro hpos
      exfalso
      simp [buildResult, hp] at hpos
    · intro _
      simp [buildResult, hp]
  · constructor
    · intro _
      simp [buildResult, hp]
    · intro h0
      exfalso
      rw [buildResult_found, List.length_eq_zero] at h0
      exact hp h0

/-- Witness for C4 at a one-record response: the hypothesis
`0 < total_images_found` holds and the average equals the quotient. -/
theorem viral_average_engagement_spec_witness :
    rFetchOk.aggregated_metrics.average_engagement
      = rFetchOk.aggregated_metrics.total_engagement_score
        / (rFetchOk.total_images_found : ℚ) :=
  (viral_average_engagement_spec bFetchOk sampleBodyVal "s" "t" 0
    rFetchOk rfl).1 (by decide)

/-- C5: `top_performing_platform` is a platform of some processed item and
its item count is maximal among all platforms occurring in the processed
items (Python's `max` keeps the first maximal element its scan meets);
with no processed items it is the sentinel `"none"`. -/
theorem viral_top_platform_spec (b : WorkerBehavior) (body : BodyVal)
    (sid now : String) (ep : Nat) (r : SearchResult)
    (h : processViralResults b body sid now ep = some r) :
    (r.viral_images = [] →
      r.aggregated_metrics.top_performing_platform = "none")
    ∧ (r.viral_images ≠ [] →
      r.aggregated_metrics.top_performing_platform
          ∈ r.viral_images.map (fun it => it.platform)
      ∧ ∀ p ∈ r.viral_images.map (fun it => it.platform),
          platformCount r.viral_images p
            ≤ platformCount r.viral_images
                r.aggregated_metrics.top_performing_platform) := by
  obtain ⟨rs, rfl⟩ := processViralResults_eq_some b body sid now ep r h
  simp only [buildResult_viral_images, buildResult_top]
  constructor
  · intro hnil
    rw [hnil]
    simp [pyMaxBy]
  · intro hne
    have hdne : ((processRecords b sid now ep 0 rs).map
        (fun it => it.platform)).dedup ≠ [] := by
      rw [Ne, List.dedup_eq_nil, List.map_eq_nil_iff]
      exact hne
    cases hdd : ((processRecords b sid now ep 0 rs).map
        (fun it => it.platform)).dedup with
    | nil => exact absurd hdd hdne
    | cons p ps =>
      obtain ⟨m, hm, hmem, hle⟩ :=
        pyMaxBy_mem_le (platformCount (processRecords b sid now ep 0 rs)) p ps
      rw [hm]
      constructor
      · exact List.mem_dedup.mp (hdd ▸ hmem)
      · intro pf hpf
        have hpf' : pf ∈ ((processRecords b sid now ep 0 rs).map
            (fun it => it.platform)).dedup := List.mem_dedup.mpr hpf
        rw [hdd] at hpf'
        exact hle pf hpf'

/-- Witness for C5 at a three-record, two-platform response. -/
theorem viral_top_platform_spec_witness :
    rTwoPlat.aggregated_metrics.top_performing_platform
        ∈ rTwoPlat.viral_images.map (fun it => it.platform)
    ∧ ∀ p ∈ rTwoPlat.viral_images.map (fun it => it.platform),
        platformCount rTwoPlat.viral_images p
          ≤ platformCount rTwoPlat.viral_images
              rTwoPlat.aggregated_metrics.top_performing_platform :=
  (viral_top_platform_spec bTwoPlatforms
    (.dict (some (.records twoPlatRecs))) "s" "t" 0 rTwoPlat rfl).2 (by decide)

/-- C6: for a successful response of N well-formed records of which K have a
non-empty `image_url`, with every such download succeeding, the result has
`total_images_found = N` and `total_images_saved = K`. -/
theorem viral_counts_on_success (b : WorkerBehavior) (sid now : String)
    (ep : Nat) (rs : List RawViralRecord)
    (hdl : ∀ r ∈ rs, r.image_url.getD "" ≠ "" →
      b.imgFetch (r.image_url.getD "") = true) :
    ∃ res, processViralResults b (.dict (some (.records (rs.map RecVal.ok))))
        sid now ep = some res
      ∧ res.total_images_found = rs.length
      ∧ res.total_images_saved
        = (rs.filter (fun r => r.image_url.getD "" != "")).length := by
  refine ⟨_, rfl, ?_, ?_⟩
  · show (processRecords b sid now ep 0 (rs.map RecVal.ok)).length = rs.length
    exact processRecords_ok_length b sid now ep rs 0
  · show ((processRecords b sid now ep 0 (rs.map RecVal.ok)).filter
        (fun it => it.local_image_path.isSome)).length
      = (rs.filter (fun r => r.image_url.getD "" != "")).length
    exact processRecords_ok_saved b sid now ep rs 0 hdl

/-- Witness for C6: two records, one with an image URL, all downloads
succeed. -/
theorem viral_counts_on_success_witness :
    ∃ res, processViralResults bFetchOk
        (.dict (some (.records ([sampleRec, sampleRecNoImg].map RecVal.ok))))
        "s" "t" 0 = some res
      ∧ res.total_images_found = [sampleRec, sampleRecNoImg].length
      ∧ res.total_images_saved
        = ([sampleRec, sampleRecNoImg].filter
            (fun r => r.image_url.getD "" != "")).length :=
  viral_counts_on_success bFetchOk "s" "t" 0 [sampleRec, sampleRecNoImg]
    (fun _ _ _ => rfl)

/-- C7: the processed items are exactly the error-free (well-formed) raw
records of the response, in response order — their record-derived fields
equal, in order, those of the surviving records — and in particular there
are at most as many processed items as raw records. -/
theorem viral_item_order_preserved (b : WorkerBehavior) (sid now : String)
    (ep : Nat) (rs : List RecVal) (r : SearchResult)
    (h : processViralResults b (.dict (some (.records rs))) sid now ep = some r) :
    r.viral_images.map ProcessedViralItem.core
      = rs.filterMap (fun rec => match rec with
          | .malformed => none
          | .ok rr => some (rr.coreWith now))
    ∧ r.viral_images.length ≤ rs.length := by
  have hr : r = buildResult b (.dict (some (.records rs))) sid now ep rs :=
    (Option.some.inj h).symm
  subst hr
  constructor
  · show (processRecords b sid now ep 0 rs).map ProcessedViralItem.core = _
    exact processRecords_map_core b sid now ep rs 0
  · show (processRecords b sid now ep 0 rs).length ≤ rs.length
    exact processRecords_length_le b sid now ep rs 0

/-- Witness for C7 at a mixed (well-formed/malformed) record list. -/
theorem viral_item_order_preserved_witness :
    rMixed.viral_images.map ProcessedViralItem.core
      = mixedRecs.filterMap (fun rec => match rec with
          | .malformed => none
          | .ok rr => some (rr.coreWith "t"))
    ∧ rMixed.viral_images.length ≤ mixedRecs.length :=
  viral_item_order_preserved bFetchOk "s" "t" 0 mixedRecs rMixed rfl

/-- C9: on every path (processing or fallback), `total_images_saved` counts
exactly the items with a present `local_image_path`, `total_images_found`
counts all items, and hence `total_images_saved ≤ total_images_found`. -/
theorem viral_saved_le_found (b : WorkerBehavior) (q sid now : String)
    (ep : Nat) (r : SearchResult)
    (h : (searchViralContent b q sid now ep).1 = some r) :
    r.total_images_saved
      = (r.viral_images.filter (fun it => it.local_image_path.isSome)).length
    ∧ r.total_images_found = r.viral_images.length
    ∧ r.total_images_saved ≤ r.total_images_found := by
  rcases searchViralContentWith_origin max_retries b q sid now ep r h with rfl | ⟨body, hp⟩
  · exact ⟨rfl, rfl, le_refl 0⟩
  · obtain ⟨rs, rfl⟩ := processViralResults_eq_some b body sid now ep r hp
    refine ⟨rfl, rfl, ?_⟩
    show ((processRecords b sid now ep 0 rs).filter
        (fun it => it.local_image_path.isSome)).length
      ≤ (processRecords b sid now ep 0 rs).length
    exact List.length_filter_le _ _

/-- Witness for C9 on the success path of a concrete worker. -/
theorem viral_saved_le_found_witness :
    rFetchOk.total_images_saved
      = (rFetchOk.viral_images.filter (fun it => it.local_image_path.isSome)).length
    ∧ rFetchOk.total_images_found = rFetchOk.viral_images.length
    ∧ rFetchOk.total_images_saved ≤ rFetchOk.total_images_found :=
  viral_saved_le_found bFetchOk "q" "s" "t" 0 rFetchOk rfl
